/-
Verification of the filtering/search core of `data_explorer.py`.

The development shallowly embeds the parts of the source the claims are
about:

* the derived `restart` / `coordinate` flags computed in
  `DatabaseExtension.experiment_variable_map`;
* `DatabaseExtension.variable_filter` and the caller
  `DatabaseExplorer._filter_experiments`;
* the visibility mask of `VariableSelector._filter_eventhandler`,
  the live search of `_search_eventhandler`, and the combined
  `ExperimentExplorer.get_visible_variables`;
* the `delete` / `add` operations of `VariableSelector` and
  `VariableSelectFilter`, and the two transfer buttons
  `_add_var_to_selected` / `_sub_var_from_selected`.

Pandas dataframes are modelled as lists of records; pandas `NaN` cells
for `units` are modelled with `Option String` (the source passes
`na=False` to the string matchers, which maps to `false` on `none`).
Python sets are modelled as `Finset String`.
-/
import Mathlib

namespace DataExplorer

/-! ### String helpers

`strContains s pat` models Python's `pat in s` / pandas
`.str.contains(pat)` (plain substring, the patterns used in the source
contain no regex metacharacters).  `strStartsWith` models
`.str.startswith`.  `casefoldLe` models comparison of
`str.casefold`-keys as used by `sorted(..., key=str.casefold)`
(casefold and lower agree on the ASCII names involved). -/

def strContains (s pat : String) : Bool :=
  s.data.tails.any (fun t => pat.data.isPrefixOf t)

def strStartsWith (s pat : String) : Bool :=
  pat.data.isPrefixOf s.data

/-- Lexicographic code-point comparison of character lists — Python's
ordering on `str`. -/
def charListLe : List Char → List Char → Bool
  | [], _ => true
  | _ :: _, [] => false
  | a :: as, b :: bs =>
      if a.toNat < b.toNat then true
      else if b.toNat < a.toNat then false
      else charListLe as bs

theorem charListLe_total (as bs : List Char) :
    charListLe as bs = true ∨ charListLe bs as = true := by
  induction as generalizing bs with
  | nil => exact Or.inl rfl
  | cons a as ih =>
      cases bs with
      | nil => exact Or.inr rfl
      | cons b bs =>
          by_cases h1 : a.toNat < b.toNat
          · exact Or.inl (by simp [charListLe, h1])
          · by_cases h2 : b.toNat < a.toNat
            · exact Or.inr (by simp [charListLe, h2])
            · rcases ih bs with h | h
              · exact Or.inl (by simp [charListLe, h1, h2, h])
              · exact Or.inr (by simp [charListLe, h1, h2, h])

theorem charListLe_trans (as bs cs : List Char) (h1 : charListLe as bs = true)
    (h2 : charListLe bs cs = true) : charListLe as cs = true := by
  induction as generalizing bs cs with
  | nil => rfl
  | cons a as ih =>
      cases bs with
      | nil => simp [charListLe] at h1
      | cons b bs =>
          cases cs with
          | nil => simp [charListLe] at h2
          | cons c cs =>
              simp only [charListLe] at h1 h2 ⊢
              by_cases hab : a.toNat < b.toNat
              · by_cases hbc : b.toNat < c.toNat
                · simp [show a.toNat < c.toNat from by omega]
                · by_cases hcb : c.toNat < b.toNat
                  · simp [hbc, hcb] at h2
                  · simp [show a.toNat < c.toNat from by omega]
              · by_cases hba : b.toNat < a.toNat
                · simp [hab, hba] at h1
                · by_cases hbc : b.toNat < c.toNat
                  · simp [show a.toNat < c.toNat from by omega]
                  · by_cases hcb : c.toNat < b.toNat
                    · simp [hbc, hcb] at h2
                    · simp [hab, hba] at h1
                      simp [hbc, hcb] at h2
                      simp [show ¬a.toNat < c.toNat from by omega,
                        show ¬c.toNat < a.toNat from by omega]
                      exact ih bs cs h1 h2

/-- Python's `<=` on strings: code-point lexicographic order. -/
def strLe (a b : String) : Prop :=
  charListLe a.data b.data = true

instance : DecidableRel strLe :=
  fun a b => inferInstanceAs (Decidable (charListLe a.data b.data = true))

instance : IsTotal String strLe :=
  ⟨fun a b => charListLe_total a.data b.data⟩

instance : IsTrans String strLe :=
  ⟨fun a b c => charListLe_trans a.data b.data c.data⟩

/-- Comparison of `str.casefold`-keys as used by
`sorted(..., key=str.casefold)` — compare the lower-cased code points. -/
def casefoldLe (a b : String) : Prop :=
  charListLe (a.data.map Char.toLower) (b.data.map Char.toLower) = true

instance : DecidableRel casefoldLe :=
  fun a b => inferInstanceAs
    (Decidable (charListLe (a.data.map Char.toLower) (b.data.map Char.toLower) = true))

instance : IsTotal String casefoldLe :=
  ⟨fun _ _ => charListLe_total _ _⟩

instance : IsTrans String casefoldLe :=
  ⟨fun _ _ _ => charListLe_trans _ _ _⟩

theorem strContains_empty_right (s : String) : strContains s "" = true := by
  cases s with
  | mk data =>
    cases data with
    | nil => rfl
    | cons c cs =>
      simp [strContains, List.tails, List.any_cons, List.isPrefixOf]

/-! ### Variable rows and the derived flags
(`DatabaseExtension.experiment_variable_map`, lines 42-69) -/

/-- One row of the joined (experiment × variable) table.  `visible` is
the extra column `VariableSelector.__init__` assigns
(`variables.assign(visible=True)`). -/
structure VarRow where
  name : String
  long_name : String
  units : Option String
  ncfile : String
  restart : Bool
  coordinate : Bool
  visible : Bool
deriving DecidableEq, Repr

/-- Restart flag: `allvars.ncfile.str.contains('restart')`. -/
def restartFlag (ncfile : String) : Bool :=
  strContains ncfile "restart"

/-- Coordinate flag: `allvars.units.str.contains('degrees', na=False) | ... since ... |
units.str.match('^radians$', na=False) | units.str.startswith('days', na=False)`. -/
def coordinateFlag (units : Option String) : Bool :=
  match units with
  | none => false
  | some u =>
      strContains u "degrees" || strContains u "since" ||
      (u == "radians") || strStartsWith u "days"

/-- Recompute the two derived flag columns of one row, as
`experiment_variable_map` does from the `ncfile` and `units` columns. -/
def deriveFlags (r : VarRow) : VarRow :=
  { r with restart := restartFlag r.ncfile, coordinate := coordinateFlag r.units }

/-- Models `DatabaseExtension.experiment_variable_map`: tag each per-experiment
row with its experiment and compute the derived flag columns. -/
def experiment_variable_map (raw : List (String × VarRow)) : List (String × VarRow) :=
  raw.map (fun p => (p.1, deriveFlags p.2))

/-! ### The visibility mask and search
(`VariableSelector._filter_eventhandler` lines 209-231,
`_search_eventhandler` lines 233-245,
`ExperimentExplorer.get_visible_variables` lines 821-844) -/

/-- The mask built by `_filter_eventhandler` / `get_visible_variables`:
start from `name.ne('')`, then `mask & (restart != checkbox)` only when
the checkbox is ticked, likewise for coordinates. -/
def checkboxMask (hideRestarts hideCoords : Bool) (r : VarRow) : Bool :=
  let m := r.name != ""
  let m := if hideRestarts then m && (r.restart != hideRestarts) else m
  if hideCoords then m && (r.coordinate != hideCoords) else m

/-- Search match: `variables.name.str.contains(term) | variables.long_name.str.contains(term)`. -/
def searchMatch (term : String) (r : VarRow) : Bool :=
  strContains r.name term || strContains r.long_name term

/-- Spec §3 invariant, written from the spec's words: `name != '' AND
(NOT hide_restarts OR NOT restart) AND (NOT hide_coords OR NOT coordinate)
AND (search_text == '' OR name contains search_text OR long_name contains
search_text)`. -/
def specVisible (hideRestarts hideCoords : Bool) (searchText : String) (r : VarRow) : Bool :=
  (r.name != "") && (!hideRestarts || !r.restart) && (!hideCoords || !r.coordinate) &&
    ((searchText == "") || strContains r.name searchText || strContains r.long_name searchText)

/-- Row filtering of `ExperimentExplorer.get_visible_variables`:
checkbox mask first, then — only when a non-empty search term was passed —
the name / long-name substring filter. -/
def visibleRows (vars : List VarRow) (hideRestarts hideCoords : Bool)
    (term : Option String) : List VarRow :=
  let vs := vars.filter (checkboxMask hideRestarts hideCoords)
  match term with
  | none => vs
  | some t => if t = "" then vs else vs.filter (searchMatch t)

/-- Models `ExperimentExplorer.get_visible_variables`: the filtered rows' names,
`sorted(..., key=str.casefold)`. -/
def get_visible_variables (vars : List VarRow) (hideRestarts hideCoords : Bool)
    (term : Option String) : List String :=
  List.insertionSort casefoldLe ((visibleRows vars hideRestarts hideCoords term).map VarRow.name)

theorem checkboxMask_eq_spec (hr hc : Bool) (r : VarRow) :
    checkboxMask hr hc r = ((r.name != "") && (!hr || !r.restart) && (!hc || !r.coordinate)) := by
  obtain ⟨n, ln, u, nc, rs, co, vis⟩ := r
  cases hr <;> cases hc <;> cases rs <;> cases co <;> simp [checkboxMask]

theorem visibleRows_eq_spec (vars : List VarRow) (hr hc : Bool) (t : String) :
    visibleRows vars hr hc (some t) = vars.filter (specVisible hr hc t) := by
  by_cases ht : t = ""
  · subst ht
    simp only [visibleRows, if_pos rfl]
    apply List.filter_congr
    intro r _
    simp [checkboxMask_eq_spec, specVisible]
  · simp only [visibleRows, if_neg ht, List.filter_filter]
    apply List.filter_congr
    intro r _
    have hbeq : (t == "") = false := by
      simpa using ht
    obtain ⟨n, ln, u, nc, rs, co, vis⟩ := r
    simp only [checkboxMask_eq_spec, specVisible, searchMatch, hbeq, Bool.false_or]
    cases rs <;> cases co <;> cases hr <;> cases hc <;>
      cases strContains n t <;> cases strContains ln t <;> simp

/-! ### DatabaseExtension: variable_filter and its caller
(`DatabaseExtension.variable_filter` lines 93-102,
`DatabaseExplorer._filter_experiments` lines 589-608) -/

/-- The state of a `DatabaseExtension`: the experiment list and the
joined experiment×variable map (row = (experiment, variable row)). -/
structure DataBase where
  experiments : List String
  exptVariableMap : List (String × VarRow)

/-- Models `set(self.expt_variable_map[self.expt_variable_map.name == v]
.reset_index()['experiment'])`: experiments having a row named `v`. -/
def exptsWith (db : DataBase) (v : String) : Finset String :=
  ((db.exptVariableMap.filter (fun p => p.2.name == v)).map Prod.fst).toFinset

/-- Models `DatabaseExtension.variable_filter`: one experiment set per
requested variable, then `set.intersection(*expts)`.  Python's
`set.intersection` with zero argument sets raises `TypeError`;
that error outcome is modelled as `none`. -/
def variable_filter (db : DataBase) (variableNames : List String) : Option (Finset String) :=
  match variableNames with
  | [] => none
  | v :: vs => some (vs.foldl (fun acc u => acc ∩ exptsWith db u) (exptsWith db v))

/-- Models `DatabaseExplorer._filter_experiments`: start from the set of all
experiments, intersect with the keyword filter only when keywords are
ticked, and with `variable_filter` only when filter variables were
chosen.  The keyword filter delegates to the external catalog and is
passed in as an opaque function. -/
def filter_experiments (db : DataBase) (kwFilter : List String → Finset String)
    (kwds selectedVars : List String) : Option (Finset String) :=
  let options := db.experiments.toFinset
  let options := if kwds.length > 0 then options ∩ kwFilter kwds else options
  if selectedVars.length > 0 then
    (variable_filter db selectedVars).map (fun s => options ∩ s)
  else
    some options

/-! ### The VariableSelector widget
(`VariableSelector` lines 139-301) -/

/-- The mutable state of a `VariableSelector`: its dataframe (with the
`visible` column), the two checkbox values, the search text, the
currently highlighted item (`selector.label`) and the displayed options
(the `(name, long_name)` pairs handed to the Select widget). -/
structure Selector where
  varTable : List VarRow
  filterRestarts : Bool
  filterCoords : Bool
  searchText : String
  selLabel : Option String
  options : List (String × String)
deriving DecidableEq, Repr

/-- Ordering used by `sort_values(['name'])`: plain (case-sensitive)
comparison of the `name` column. -/
def rowNameLe (a b : VarRow) : Prop :=
  strLe a.name b.name

instance : DecidableRel rowNameLe :=
  fun a b => inferInstanceAs (Decidable (strLe a.name b.name))

instance : IsTotal VarRow rowNameLe :=
  ⟨fun a b => charListLe_total a.name.data b.name.data⟩

instance : IsTrans VarRow rowNameLe :=
  ⟨fun a b c => charListLe_trans a.name.data b.name.data c.name.data⟩

/-- Models `_update_variables`: `dict(variables.sort_values(['name'])
[['name','long_name']].values)` — sort by `name` (case-sensitive) and
display the (name, long_name) pairs. -/
def updateVariablesOptions (rows : List VarRow) : List (String × String) :=
  (List.insertionSort rowNameLe rows).map (fun r => (r.name, r.long_name))

/-- Models `_filter_eventhandler`: recompute the `visible` column from the
checkbox mask, push the visible rows to the selector, wipe the search
text and clear the highlighted selection. -/
def filterEventhandler (s : Selector) : Selector :=
  let vars := s.varTable.map
    (fun r => { r with visible := checkboxMask s.filterRestarts s.filterCoords r })
  { s with
    varTable := vars
    options := updateVariablesOptions (vars.filter (fun r => r.visible))
    searchText := ""
    selLabel := none }

/-- Models `_search_eventhandler`: filter the rows already marked `visible` by
the substring search on name / long_name and push them to the selector;
`variables` and the search text itself are untouched.  (The source's
guard `if search_term is not None or search_term != ''` is always true,
so the substring filter is applied unconditionally.) -/
def searchEventhandler (s : Selector) : Selector :=
  { s with
    options := updateVariablesOptions
      ((s.varTable.filter (fun r => r.visible)).filter (searchMatch s.searchText)) }

/-- Typing `t` into the search box: the widget stores the new value and
the observer fires `_search_eventhandler`. -/
def setSearch (s : Selector) (t : String) : Selector :=
  searchEventhandler { s with searchText := t }

/-- Models `VariableSelector.delete` with an explicit name list: build the
`isin` mask, split off the deleted rows, and re-run
`_search_eventhandler` so the current search term is preserved. -/
def selectorDeleteNames (s : Selector) (ns : List String) : Option (List VarRow) × Selector :=
  let deleted := s.varTable.filter (fun r => ns.contains r.name)
  let s' := { s with varTable := s.varTable.filter (fun r => !ns.contains r.name) }
  (some deleted, searchEventhandler s')

/-- Models `VariableSelector.delete`: with no names, delete the highlighted
item, or return `None` without touching anything when nothing is
highlighted. -/
def selectorDelete (s : Selector) (names : Option (List String)) :
    Option (List VarRow) × Selector :=
  match names with
  | none =>
      match s.selLabel with
      | none => (none, s)
      | some l => selectorDeleteNames s [l]
  | some ns => selectorDeleteNames s ns

/-- Models `VariableSelector.add`: `pd.concat([self.variables, variables])`
(`pd.concat` silently drops a `None` member) followed by
`_filter_eventhandler`. -/
def selectorAdd (s : Selector) (rows : Option (List VarRow)) : Selector :=
  filterEventhandler { s with varTable := s.varTable ++ rows.getD [] }

/-! ### The VariableSelectFilter widget (transfer list)
(`VariableSelectFilter` lines 304-419) -/

/-- A `VariableSelectFilter`: the embedded `VariableSelector` (the
source side), the chosen-variable dataframe, the highlighted item of the
chosen-side Select, and its displayed options. -/
structure FilterWidget where
  selector : Selector
  varTable : List VarRow
  filterLabel : Option String
  filterOptions : List (String × String)
deriving DecidableEq, Repr

/-- Models `VariableSelectFilter._update_variables`. -/
def filterUpdateVariables (w : FilterWidget) : FilterWidget :=
  { w with filterOptions := updateVariablesOptions w.varTable }

/-- Models `VariableSelectFilter.add`: return unchanged on `None` or empty
input, otherwise concatenate and refresh the display. -/
def filterAdd (w : FilterWidget) (rows : Option (List VarRow)) : FilterWidget :=
  match rows with
  | none => w
  | some rs =>
      if rs.isEmpty then w
      else filterUpdateVariables { w with varTable := w.varTable ++ rs }

/-- Models `VariableSelectFilter.delete` with an explicit name list. -/
def filterDeleteNames (w : FilterWidget) (ns : List String) :
    Option (List VarRow) × FilterWidget :=
  let deleted := w.varTable.filter (fun r => ns.contains r.name)
  let w' := { w with varTable := w.varTable.filter (fun r => !ns.contains r.name) }
  (some deleted, filterUpdateVariables w')

/-- Models `VariableSelectFilter.delete`: with no names, delete the highlighted
chosen item, or return `None` untouched when nothing is highlighted. -/
def filterDelete (w : FilterWidget) (names : Option (List String)) :
    Option (List VarRow) × FilterWidget :=
  match names with
  | none =>
      match w.filterLabel with
      | none => (none, w)
      | some l => filterDeleteNames w [l]
  | some ns => filterDeleteNames w ns

/-- Models `_add_var_to_selected` (the `>>` button):
`self.add(self.widgets['selector'].delete())`. -/
def moveToChosen (w : FilterWidget) : FilterWidget :=
  let (del, sel') := selectorDelete w.selector none
  filterAdd { w with selector := sel' } del

/-- Models `_sub_var_from_selected` (the `<<` button):
`self.widgets['selector'].add(self.delete())`. -/
def moveToSource (w : FilterWidget) : FilterWidget :=
  let (del, w') := filterDelete w none
  { w' with selector := selectorAdd w'.selector del }

/-- Total number of rows held by the two sides of the transfer list. -/
def totalCount (w : FilterWidget) : Nat :=
  w.selector.varTable.length + w.varTable.length

/-- The user-driven events of the transfer-list pair: highlighting an
item on either side, or pressing one of the two transfer buttons. -/
inductive MoveOp where
  | selectSrc (l : Option String)
  | selectCh (l : Option String)
  | toChosen
  | toSource
deriving DecidableEq, Repr

def applyMove (w : FilterWidget) : MoveOp → FilterWidget
  | MoveOp.selectSrc l => { w with selector := { w.selector with selLabel := l } }
  | MoveOp.selectCh l => { w with filterLabel := l }
  | MoveOp.toChosen => moveToChosen w
  | MoveOp.toSource => moveToSource w

def applyMoves (w : FilterWidget) (ms : List MoveOp) : FilterWidget :=
  ms.foldl applyMove w

/-! ### Concrete example data used by witnesses and counterexamples -/

/-- A plain diagnostic variable row (not a restart, not a coordinate). -/
def rowTemp : VarRow :=
  ⟨"temp", "Temperature", some "K", "output000/temp.nc", false, false, true⟩

/-- A second plain diagnostic variable row. -/
def rowSalt : VarRow :=
  ⟨"salt", "Salinity", some "psu", "output000/salt.nc", false, false, true⟩

/-- A restart-file row (its `ncfile` contains `restart`). -/
def rowRestart : VarRow :=
  ⟨"age", "Age tracer", some "yr", "restart000/age.nc", true, false, true⟩

/-- A coordinate row (its units contain `degrees`). -/
def rowCoord : VarRow :=
  ⟨"xt", "Longitude", some "degrees_E", "output000/grid.nc", false, true, true⟩

/-- A row whose name starts with an upper-case letter, for the sorting
counterexample. -/
def rowTempUpper : VarRow :=
  ⟨"Temp", "Upper case temperature", some "K", "output000/Temp.nc", false, false, true⟩

/-- A row named with an all-lower-case word ordered after `Temp` in
code-point order but before `temp` in casefolded order. -/
def rowApple : VarRow :=
  ⟨"apple", "Apple count", some "1", "output000/apple.nc", false, false, true⟩

/-- Rows for experiment `E1` carrying variables `A` and `B`, `E2`
carrying only `A`, `E3` carrying only `B`. -/
def dbExample : DataBase :=
  { experiments := ["E1", "E2", "E3"]
    exptVariableMap :=
      [("E1", ⟨"A", "var A", none, "output/a.nc", false, false, true⟩),
       ("E1", ⟨"B", "var B", none, "output/b.nc", false, false, true⟩),
       ("E2", ⟨"A", "var A", none, "output/a.nc", false, false, true⟩),
       ("E3", ⟨"B", "var B", none, "output/b.nc", false, false, true⟩)] }

/-- A selector holding two plain rows with `temp` highlighted. -/
def selExample : Selector :=
  ⟨[rowTemp, rowSalt], true, true, "", some "temp", []⟩

/-- A selector with nothing highlighted. -/
def selNoSelection : Selector :=
  ⟨[rowTemp, rowSalt], true, true, "", none, []⟩

/-- A transfer-list widget: `temp`/`salt` on the source side (with
`temp` highlighted) and nothing chosen yet. -/
def widgetExample : FilterWidget :=
  ⟨selExample, [], none, []⟩

/-- A transfer-list widget with nothing highlighted on either side. -/
def widgetNoSelection : FilterWidget :=
  ⟨selNoSelection, [rowApple], none, []⟩

/-! ### C1 — the visibility mask -/

/-- C1: for every facet state the set of visible variable rows is
exactly the rows satisfying `name != '' AND (NOT hide_restarts OR NOT
restart) AND (NOT hide_coords OR NOT coordinate) AND (search_text == ''
OR name contains search_text OR long_name contains search_text)`; in
particular, when both checkboxes are false the restart/coordinate flags
impose no filtering. -/
theorem C1_visible_rows_match_spec (vars : List VarRow) (hr hc : Bool) (t : String) :
    visibleRows vars hr hc (some t) = vars.filter (specVisible hr hc t) ∧
    visibleRows vars false false (some t) =
      vars.filter (fun r => (r.name != "") &&
        ((t == "") || strContains r.name t || strContains r.long_name t)) := by
  refine ⟨visibleRows_eq_spec vars hr hc t, ?_⟩
  rw [visibleRows_eq_spec vars false false t]
  apply List.filter_congr
  intro r _
  simp [specVisible]

/-! ### C5 — the derived flags are pure and idempotent -/

theorem deriveFlags_idem (r : VarRow) : deriveFlags (deriveFlags r) = deriveFlags r := rfl

/-- C5: the derived flags are pure functions of the row: `restart` is
true iff the file pattern contains `restart`, `coordinate` is true iff
the units contain `degrees` or `since`, equal `radians`, or start with
`days`; re-deriving the flags a second time changes nothing. -/
theorem C5_derived_flags (r : VarRow) (raw : List (String × VarRow)) :
    (deriveFlags r).restart = strContains r.ncfile "restart" ∧
    ((deriveFlags r).coordinate = true ↔ ∃ u, r.units = some u ∧
      (strContains u "degrees" = true ∨ strContains u "since" = true ∨
        u = "radians" ∨ strStartsWith u "days" = true)) ∧
    deriveFlags (deriveFlags r) = deriveFlags r ∧
    experiment_variable_map (experiment_variable_map raw) = experiment_variable_map raw := by
  refine ⟨rfl, ?_, deriveFlags_idem r, ?_⟩
  · cases hu : r.units with
    | none => simp [deriveFlags, coordinateFlag, hu]
    | some u =>
        simp [deriveFlags, coordinateFlag, hu, or_assoc]
  · simp [experiment_variable_map, List.map_map, Function.comp_def, deriveFlags_idem]

/-! ### C2 / C3 — variable_filter -/

theorem mem_exptsWith (db : DataBase) (e v : String) :
    e ∈ exptsWith db v ↔ ∃ p ∈ db.exptVariableMap, p.1 = e ∧ p.2.name = v := by
  simp only [exptsWith, List.mem_toFinset, List.mem_map, List.mem_filter]
  constructor
  · rintro ⟨p, ⟨hmem, hname⟩, hfst⟩
    exact ⟨p, hmem, hfst, by simpa using hname⟩
  · rintro ⟨p, hmem, hfst, hname⟩
    exact ⟨p, ⟨hmem, by simpa using hname⟩, hfst⟩

theorem mem_foldl_inter (db : DataBase) (e : String) (acc : Finset String)
    (vs : List String) :
    (e ∈ vs.foldl (fun acc u => acc ∩ exptsWith db u) acc) ↔
      (e ∈ acc ∧ ∀ v ∈ vs, e ∈ exptsWith db v) := by
  induction vs generalizing acc with
  | nil => simp
  | cons v vs ih =>
      simp only [List.foldl_cons, ih, Finset.mem_inter, List.mem_cons]
      constructor
      · rintro ⟨⟨ha, hv⟩, hrest⟩
        exact ⟨ha, fun u hu => hu.elim (fun h => h ▸ hv) (hrest u)⟩
      · rintro ⟨ha, hall⟩
        exact ⟨⟨ha, hall v (Or.inl rfl)⟩, fun u hu => hall u (Or.inr hu)⟩

/-- C2: for every non-empty list of variable names, `variable_filter`
succeeds and returns exactly the experiments that have a row for every
requested name (intersection / AND semantics). -/
theorem C2_variable_filter_intersection (db : DataBase) (vnames : List String)
    (h : vnames ≠ []) :
    (variable_filter db vnames).isSome = true ∧
    ∀ e, (e ∈ (variable_filter db vnames).getD ∅ ↔
      ∀ v ∈ vnames, ∃ p ∈ db.exptVariableMap, p.1 = e ∧ p.2.name = v) := by
  cases vnames with
  | nil => exact absurd rfl h
  | cons v vs =>
      refine ⟨rfl, fun e => ?_⟩
      simp only [variable_filter, Option.getD_some, mem_foldl_inter, List.mem_cons]
      constructor
      · rintro ⟨hv, hrest⟩ u hu
        exact ((mem_exptsWith db e u).mp (hu.elim (fun h => h ▸ hv) (hrest u)))
      · intro hall
        refine ⟨(mem_exptsWith db e v).mpr (hall v (Or.inl rfl)),
          fun u hu => (mem_exptsWith db e u).mpr (hall u (Or.inr hu))⟩

/-- Witness for C2 on the spec's own example: experiments `E1`:{A,B},
`E2`:{A}, `E3`:{B}; `variable_filter {A,B}` is exactly `{E1}`. -/
theorem C2_variable_filter_intersection_witness :
    variable_filter dbExample ["A", "B"] = some {"E1"} ∧
    ((variable_filter dbExample ["A", "B"]).isSome = true ∧
      ∀ e, (e ∈ (variable_filter dbExample ["A", "B"]).getD ∅ ↔
        ∀ v ∈ ["A", "B"], ∃ p ∈ dbExample.exptVariableMap, p.1 = e ∧ p.2.name = v)) :=
  ⟨by decide, C2_variable_filter_intersection dbExample ["A", "B"] (by decide)⟩

/-- C3 counterexample: `variable_filter` applied to an empty name list
does **not** return the full experiment universe — it reaches
`set.intersection()` with zero sets, which raises (modelled `none`). -/
theorem C3_empty_filter_counterexample :
    variable_filter dbExample [] ≠ some dbExample.experiments.toFinset ∧
    variable_filter dbExample [] = none := by
  exact ⟨by decide, rfl⟩

/-- C3 as amended: `variable_filter` itself is undefined (raises) on an
empty name list, but the caller `_filter_experiments` special-cases the
empty selection: with no chosen filter variables it never calls
`variable_filter`, leaving the experiment list unrestricted; and on any
non-empty selection the intersection is taken over at least one set and
never fails. -/
theorem C3_empty_filter_guarded (db : DataBase) (kwFilter : List String → Finset String) :
    filter_experiments db kwFilter [] [] = some db.experiments.toFinset ∧
    (∀ kwds, (filter_experiments db kwFilter kwds []).isSome = true) ∧
    (∀ selVars, selVars ≠ [] → (variable_filter db selVars).isSome = true) := by
  refine ⟨rfl, fun kwds => ?_, fun selVars hne => ?_⟩
  · by_cases hk : kwds.length > 0 <;> simp [filter_experiments, hk]
  · cases selVars with
    | nil => exact absurd rfl hne
    | cons v vs => rfl

/-- Witness for C3: with no keywords and no filter variables the
filtering action returns the full universe `{E1, E2, E3}`, and a
one-variable selection makes `variable_filter` succeed. -/
theorem C3_empty_filter_guarded_witness :
    filter_experiments dbExample (fun _ => ∅) [] [] = some dbExample.experiments.toFinset ∧
    (variable_filter dbExample ["A"]).isSome = true :=
  ⟨(C3_empty_filter_guarded dbExample (fun _ => ∅)).1,
   (C3_empty_filter_guarded dbExample (fun _ => ∅)).2.2 ["A"] (by decide)⟩

/-! ### C4 — clearing the search restores the checkbox-filtered set -/

theorem searchMatch_empty (r : VarRow) : searchMatch "" r = true := by
  simp [searchMatch, strContains_empty_right]

theorem mem_updateVariablesOptions (rows : List VarRow) (pr : String × String) :
    pr ∈ updateVariablesOptions rows ↔ ∃ r ∈ rows, (r.name, r.long_name) = pr := by
  simp [updateVariablesOptions, List.mem_map,
    (List.perm_insertionSort rowNameLe rows).mem_iff]

/-- C4: for any fixed checkbox state, setting the search text and then
resetting it to the empty string restores exactly the checkbox-filtered
visible set (the options shown right after `_filter_eventhandler`), and
no search term ever re-admits a row the checkboxes hid: every searched
option is among the checkbox-filtered options. -/
theorem C4_search_reset_restores_checkbox_set (s : Selector) (t t' : String) :
    (setSearch (setSearch (filterEventhandler s) t) "").options =
      (filterEventhandler s).options ∧
    ∀ pr ∈ (setSearch (filterEventhandler s) t').options,
      pr ∈ (filterEventhandler s).options := by
  constructor
  · show updateVariablesOptions
      ((((filterEventhandler s).varTable.filter (fun r => r.visible)).filter
        (searchMatch ""))) = _
    rw [List.filter_eq_self.mpr (fun r _ => searchMatch_empty r)]
    rfl
  · intro pr hpr
    have hpr' : pr ∈ updateVariablesOptions
        (((filterEventhandler s).varTable.filter (fun r => r.visible)).filter
          (searchMatch t')) := hpr
    show pr ∈ updateVariablesOptions
      ((filterEventhandler s).varTable.filter (fun r => r.visible))
    rw [mem_updateVariablesOptions] at hpr' ⊢
    obtain ⟨r, hr, hpr''⟩ := hpr'
    rw [List.mem_filter] at hr
    exact ⟨r, hr.1, hpr''⟩

/-- Witness for C4 at a concrete state: search for `sal` and clear. -/
theorem C4_search_reset_restores_checkbox_set_witness :
    (setSearch (setSearch (filterEventhandler selNoSelection) "sal") "").options =
      (filterEventhandler selNoSelection).options ∧
    ∀ pr ∈ (setSearch (filterEventhandler selNoSelection) "sal").options,
      pr ∈ (filterEventhandler selNoSelection).options :=
  C4_search_reset_restores_checkbox_set selNoSelection "sal" "sal"

/-! ### C8 — delete with nothing highlighted is a silent no-op -/

/-- C8: with no item highlighted, `delete()` on either side of the
transfer list returns `None` and leaves the widget state — both row
lists included — completely unchanged. -/
theorem C8_delete_nothing_highlighted (s : Selector) (w : FilterWidget)
    (hs : s.selLabel = none) (hw : w.filterLabel = none) :
    selectorDelete s none = (none, s) ∧ filterDelete w none = (none, w) := by
  constructor
  · simp [selectorDelete, hs]
  · simp [filterDelete, hw]

/-- Witness for C8 at concrete no-selection states. -/
theorem C8_delete_nothing_highlighted_witness :
    selectorDelete selNoSelection none = (none, selNoSelection) ∧
    filterDelete widgetNoSelection none = (none, widgetNoSelection) :=
  C8_delete_nothing_highlighted selNoSelection widgetNoSelection rfl rfl

/-! ### C10 — add resets the search facet, delete preserves it -/

/-- C10: `VariableSelector.add` always wipes the search text and clears
the highlighted selection, displaying the full checkbox-filtered set
(it re-runs `_filter_eventhandler`), whereas `VariableSelector.delete`
keeps the current search text and re-applies it, so its displayed
options stay narrowed by the pre-existing search term. -/
theorem C10_add_resets_search_delete_preserves (s : Selector)
    (rows : Option (List VarRow)) (ns : List String) :
    (selectorAdd s rows).searchText = "" ∧
    (selectorAdd s rows).selLabel = none ∧
    (selectorAdd s rows).options =
      updateVariablesOptions ((selectorAdd s rows).varTable.filter (fun r => r.visible)) ∧
    (∀ names, ((selectorDelete s names).2).searchText = s.searchText) ∧
    ((selectorDelete s (some ns)).2).options =
      updateVariablesOptions
        ((((selectorDelete s (some ns)).2).varTable.filter (fun r => r.visible)).filter
          (searchMatch s.searchText)) := by
    refine ⟨rfl, rfl, rfl, fun names => ?_, rfl⟩
    cases names with
    | none =>
        cases hl : s.selLabel <;> simp [selectorDelete, hl, selectorDeleteNames,
          searchEventhandler]
    | some ns' => rfl

/-! ### C6 — transfer moves: round trip and count preservation -/

theorem contains_singleton (a x : String) : ([x].contains a) = (a == x) := by
  cases h : a == x <;> simp [List.contains, List.elem, h]

theorem length_filter_add_length_filter_not (p : α → Bool) (l : List α) :
    (l.filter p).length + (l.filter (fun a => !p a)).length = l.length := by
  induction l with
  | nil => rfl
  | cons a l ih => by_cases h : p a <;> simp [h] <;> omega

theorem searchEventhandler_varTable (s : Selector) :
    (searchEventhandler s).varTable = s.varTable := rfl

theorem filterAdd_selector (w : FilterWidget) (rows : Option (List VarRow)) :
    (filterAdd w rows).selector = w.selector := by
  cases rows with
  | none => rfl
  | some rs => by_cases h : rs.isEmpty <;> simp [filterAdd, h, filterUpdateVariables]

theorem filterAdd_varTable (w : FilterWidget) (rs : List VarRow) :
    (filterAdd w (some rs)).varTable = w.varTable ++ rs := by
  by_cases h : rs.isEmpty
  · have hnil : rs = [] := by simpa using h
    simp [filterAdd, h, hnil]
  · simp [filterAdd, h, filterUpdateVariables]

theorem selectorAdd_varTable (s : Selector) (rows : Option (List VarRow)) :
    (selectorAdd s rows).varTable = (s.varTable ++ rows.getD []).map
      (fun r => { r with visible := checkboxMask s.filterRestarts s.filterCoords r }) := rfl

theorem moveToChosen_eq (w : FilterWidget) :
    moveToChosen w = filterAdd { w with selector := (selectorDelete w.selector none).2 }
      (selectorDelete w.selector none).1 := by
  unfold moveToChosen
  rcases selectorDelete w.selector none with ⟨del, sel'⟩
  rfl

theorem moveToSource_eq (w : FilterWidget) :
    moveToSource w = { (filterDelete w none).2 with
      selector := selectorAdd ((filterDelete w none).2).selector (filterDelete w none).1 } := by
  unfold moveToSource
  rcases filterDelete w none with ⟨del, w'⟩
  rfl

theorem totalCount_filterAdd (w : FilterWidget) (rows : Option (List VarRow)) :
    totalCount (filterAdd w rows) = totalCount w + (rows.getD []).length := by
  cases rows with
  | none => simp [totalCount, filterAdd]
  | some rs =>
      show (filterAdd w (some rs)).selector.varTable.length +
        (filterAdd w (some rs)).varTable.length = _
      rw [filterAdd_selector, filterAdd_varTable]
      simp [totalCount]
      omega

theorem totalCount_applyMove (w : FilterWidget) (m : MoveOp) :
    totalCount (applyMove w m) = totalCount w := by
  obtain ⟨⟨A, fr, fc, st, lab, opts⟩, C, flab, fopts⟩ := w
  cases m with
  | selectSrc l => rfl
  | selectCh l => rfl
  | toChosen =>
      show totalCount (moveToChosen _) = _
      rw [moveToChosen_eq]
      cases lab with
      | none => rfl
      | some l =>
          rw [totalCount_filterAdd]
          have e1 : (selectorDelete ⟨A, fr, fc, st, some l, opts⟩ none).1
              = some (A.filter (fun r => [l].contains r.name)) := rfl
          have e2 : ((selectorDelete ⟨A, fr, fc, st, some l, opts⟩ none).2).varTable
              = A.filter (fun r => !([l].contains r.name)) := rfl
          simp only [totalCount, e1, e2, Option.getD_some]
          have := length_filter_add_length_filter_not
            (fun r => [l].contains r.name) A
          omega
  | toSource =>
      show totalCount (moveToSource _) = _
      rw [moveToSource_eq]
      cases flab with
      | none =>
          have e1 : filterDelete ⟨⟨A, fr, fc, st, lab, opts⟩, C, none, fopts⟩ none =
              (none, ⟨⟨A, fr, fc, st, lab, opts⟩, C, none, fopts⟩) := rfl
          rw [e1]
          show (selectorAdd _ _).varTable.length + _ = _
          rw [selectorAdd_varTable]
          simp [totalCount]
      | some l =>
          have e1 : (filterDelete ⟨⟨A, fr, fc, st, lab, opts⟩, C, some l, fopts⟩ none).1
              = some (C.filter (fun r => [l].contains r.name)) := rfl
          show (selectorAdd _ _).varTable.length + _ = _
          rw [selectorAdd_varTable, e1]
          show (((A ++ _ : List VarRow)).map _).length +
            (C.filter (fun r => !([l].contains r.name))).length = _
          simp only [List.length_map, List.length_append, Option.getD_some, totalCount]
          have := length_filter_add_length_filter_not
            (fun r => [l].contains r.name) C
          show A.length + (C.filter (fun r => [l].contains r.name)).length +
            (C.filter (fun r => !([l].contains r.name))).length = A.length + C.length
          omega

theorem totalCount_applyMoves (w : FilterWidget) (ms : List MoveOp) :
    totalCount (applyMoves w ms) = totalCount w := by
  induction ms generalizing w with
  | nil => rfl
  | cons m ms ih =>
      show totalCount (applyMoves (applyMove w m) ms) = totalCount w
      rw [ih, totalCount_applyMove]

/-- C6: with an item highlighted on the source side (and, per the
disjointness invariant, no chosen row of that name), pressing `>>` and
then — with the same item highlighted on the chosen side — `<<` restores
the chosen list exactly and the source list up to order (a permutation,
hence the same count); moreover every sequence of transfer-list events
preserves the total row count `|source| + |chosen|`. -/
theorem C6_move_round_trip (w : FilterWidget) (x : String)
    (h1 : w.selector.selLabel = some x)
    (h2 : ∀ r ∈ w.varTable, r.name ≠ x)
    (h3 : ∀ r ∈ w.selector.varTable,
      r.visible = checkboxMask w.selector.filterRestarts w.selector.filterCoords r) :
    (moveToSource { moveToChosen w with filterLabel := some x }).varTable = w.varTable ∧
    List.Perm (moveToSource { moveToChosen w with filterLabel := some x }).selector.varTable
      w.selector.varTable ∧
    (moveToSource { moveToChosen w with filterLabel := some x }).selector.varTable.length =
      w.selector.varTable.length ∧
    ∀ ms : List MoveOp, totalCount (applyMoves w ms) = totalCount w := by
  obtain ⟨⟨A, fr, fc, st, lab, opts⟩, C, flab, fopts⟩ := w
  have h1' : lab = some x := h1
  subst h1'
  have h2' : ∀ r ∈ C, r.name ≠ x := h2
  have h3' : ∀ r ∈ A, r.visible = checkboxMask fr fc r := h3
  -- the two filters split off by deleting the highlighted name
  have hCp : C.filter (fun r => [x].contains r.name) = [] := by
    rw [List.filter_eq_nil_iff]
    intro r hr
    simp [contains_singleton, h2' r hr]
  have hCnp : C.filter (fun r => !([x].contains r.name)) = C := by
    rw [List.filter_eq_self]
    intro r hr
    simp [contains_singleton, h2' r hr]
  have hApp : (A.filter (fun r => [x].contains r.name)).filter
      (fun r => [x].contains r.name) = A.filter (fun r => [x].contains r.name) := by
    rw [List.filter_filter]
    apply List.filter_congr
    intro r _
    cases h : [x].contains r.name <;> simp [h]
  have hApnp : (A.filter (fun r => [x].contains r.name)).filter
      (fun r => !([x].contains r.name)) = [] := by
    rw [List.filter_filter, List.filter_eq_nil_iff]
    intro r _
    cases h : [x].contains r.name <;> simp [h]
  -- step 1: the state after pressing `>>`
  have hmc : moveToChosen ⟨⟨A, fr, fc, st, some x, opts⟩, C, flab, fopts⟩ =
      filterAdd
        ⟨⟨A.filter (fun r => !([x].contains r.name)), fr, fc, st, some x,
          updateVariablesOptions
            (((A.filter (fun r => !([x].contains r.name))).filter
              (fun r => r.visible)).filter (searchMatch st))⟩, C, flab, fopts⟩
        (some (A.filter (fun r => [x].contains r.name))) := rfl
  have hsel1 : (moveToChosen ⟨⟨A, fr, fc, st, some x, opts⟩, C, flab, fopts⟩).selector =
      ⟨A.filter (fun r => !([x].contains r.name)), fr, fc, st, some x,
        updateVariablesOptions
          (((A.filter (fun r => !([x].contains r.name))).filter
            (fun r => r.visible)).filter (searchMatch st))⟩ := by
    rw [hmc, filterAdd_selector]
  have hvt1 : (moveToChosen ⟨⟨A, fr, fc, st, some x, opts⟩, C, flab, fopts⟩).varTable =
      C ++ A.filter (fun r => [x].contains r.name) := by
    rw [hmc, filterAdd_varTable]
  -- step 2: the state after highlighting `x` on the chosen side and pressing `<<`
  set w1 : FilterWidget :=
    { moveToChosen ⟨⟨A, fr, fc, st, some x, opts⟩, C, flab, fopts⟩ with
      filterLabel := some x } with hw1
  have hw1vt : w1.varTable = C ++ A.filter (fun r => [x].contains r.name) := hvt1
  have hw1sel : w1.selector =
      ⟨A.filter (fun r => !([x].contains r.name)), fr, fc, st, some x,
        updateVariablesOptions
          (((A.filter (fun r => !([x].contains r.name))).filter
            (fun r => r.visible)).filter (searchMatch st))⟩ := hsel1
  have hms : moveToSource w1 =
      { filterUpdateVariables
          { w1 with varTable := w1.varTable.filter (fun r => !([x].contains r.name)) } with
        selector := selectorAdd w1.selector
          (some (w1.varTable.filter (fun r => [x].contains r.name))) } := rfl
  refine ⟨?_, ?_, ?_, totalCount_applyMoves _⟩
  · show (moveToSource w1).varTable = C
    rw [hms]
    show w1.varTable.filter (fun r => !([x].contains r.name)) = C
    rw [hw1vt, List.filter_append, hCnp, hApnp, List.append_nil]
  · show List.Perm (moveToSource w1).selector.varTable A
    rw [hms]
    show (selectorAdd w1.selector
      (some (w1.varTable.filter (fun r => [x].contains r.name)))).varTable.Perm A
    rw [selectorAdd_varTable]
    rw [hw1vt, List.filter_append, hCp, hApp, List.nil_append, hw1sel]
    have hmapid : (((A.filter (fun r => !([x].contains r.name))) ++
        A.filter (fun r => [x].contains r.name)).map
          (fun r => { r with visible := checkboxMask fr fc r })) =
        (A.filter (fun r => !([x].contains r.name))) ++
          A.filter (fun r => [x].contains r.name) := by
      have hid : ∀ r ∈ (A.filter (fun r => !([x].contains r.name))) ++
          A.filter (fun r => [x].contains r.name),
          ({ r with visible := checkboxMask fr fc r } : VarRow) = r := by
        intro r hr
        have hrA : r ∈ A := by
          rcases List.mem_append.mp hr with h | h
          · exact (List.mem_filter.mp h).1
          · exact (List.mem_filter.mp h).1
        rw [← h3' r hrA]
      calc ((A.filter (fun r => !([x].contains r.name))) ++
            A.filter (fun r => [x].contains r.name)).map
              (fun r => { r with visible := checkboxMask fr fc r })
          = ((A.filter (fun r => !([x].contains r.name))) ++
              A.filter (fun r => [x].contains r.name)).map id :=
            List.map_congr_left hid
        _ = _ := List.map_id _
    show (((A.filter (fun r => !([x].contains r.name))) ++
        A.filter (fun r => [x].contains r.name)).map
          (fun r => { r with visible := checkboxMask fr fc r })).Perm A
    rw [hmapid]
    exact (List.perm_append_comm).trans
      (List.filter_append_perm (fun r => [x].contains r.name) A)
  · show (moveToSource w1).selector.varTable.length = A.length
    rw [hms]
    show (selectorAdd w1.selector
      (some (w1.varTable.filter (fun r => [x].contains r.name)))).varTable.length = A.length
    rw [selectorAdd_varTable, List.length_map, List.length_append, hw1vt,
      List.filter_append, hCp, hApp, List.nil_append, hw1sel]
    show (A.filter (fun r => !([x].contains r.name))).length +
      (A.filter (fun r => [x].contains r.name)).length = A.length
    have := length_filter_add_length_filter_not
      (fun r => [x].contains r.name) A
    omega

/-- Witness for C6: concrete widget with `temp` highlighted on the
source side and an unrelated chosen row. -/
theorem C6_move_round_trip_witness :
    (moveToSource { moveToChosen widgetExample with filterLabel := some "temp" }).varTable =
      widgetExample.varTable ∧
    List.Perm (moveToSource
        { moveToChosen widgetExample with filterLabel := some "temp" }).selector.varTable
      widgetExample.selector.varTable ∧
    (moveToSource
        { moveToChosen widgetExample with filterLabel := some "temp" }).selector.varTable.length =
      widgetExample.selector.varTable.length ∧
    ∀ ms : List MoveOp, totalCount (applyMoves widgetExample ms) = totalCount widgetExample :=
  C6_move_round_trip widgetExample "temp" rfl (by decide) (by decide)

/-! ### C7 — deleting an absent name -/

/-- C7 counterexample: deleting a name absent from either list does
**not** raise — both `delete` implementations return an empty record
set and leave the row lists untouched (a silent success, contradicting
the claimed `NotFoundError`). -/
theorem C7_absent_name_counterexample :
    (selectorDelete selExample (some ["missing"])).1 = some [] ∧
    ((selectorDelete selExample (some ["missing"])).2).varTable = selExample.varTable ∧
    (filterDelete widgetNoSelection (some ["missing"])).1 = some [] ∧
    ((filterDelete widgetNoSelection (some ["missing"])).2).varTable =
      widgetNoSelection.varTable := by
  refine ⟨by decide, by decide, by decide, by decide⟩

/-- C7 as amended: deleting names none of which occur in the respective
list is a silent no-op — `delete` returns an empty record set, raises
nothing, and leaves the row list unchanged. -/
theorem C7_absent_name_silent_noop (s : Selector) (w : FilterWidget) (ns : List String)
    (hs : ∀ r ∈ s.varTable, r.name ∉ ns)
    (hw : ∀ r ∈ w.varTable, r.name ∉ ns) :
    (selectorDelete s (some ns)).1 = some [] ∧
    ((selectorDelete s (some ns)).2).varTable = s.varTable ∧
    (filterDelete w (some ns)).1 = some [] ∧
    ((filterDelete w (some ns)).2).varTable = w.varTable := by
  refine ⟨?_, ?_, ?_, ?_⟩
  · show some (s.varTable.filter (fun r => ns.contains r.name)) = some []
    rw [List.filter_eq_nil_iff.mpr (fun r hr => by simp [hs r hr])]
  · show s.varTable.filter (fun r => !ns.contains r.name) = s.varTable
    exact List.filter_eq_self.mpr (fun r hr => by simp [hs r hr])
  · show some (w.varTable.filter (fun r => ns.contains r.name)) = some []
    rw [List.filter_eq_nil_iff.mpr (fun r hr => by simp [hw r hr])]
  · show w.varTable.filter (fun r => !ns.contains r.name) = w.varTable
    exact List.filter_eq_self.mpr (fun r hr => by simp [hw r hr])

/-- Witness for the amended C7 at a concrete state and name. -/
theorem C7_absent_name_silent_noop_witness :
    (selectorDelete selExample (some ["missing"])).1 = some [] ∧
    ((selectorDelete selExample (some ["missing"])).2).varTable = selExample.varTable ∧
    (filterDelete widgetExample (some ["missing"])).1 = some [] ∧
    ((filterDelete widgetExample (some ["missing"])).2).varTable = widgetExample.varTable :=
  C7_absent_name_silent_noop selExample widgetExample ["missing"] (by decide) (by decide)

/-! ### C9 — sort order of displayed variable lists -/

/-- A selector whose rows sort differently under case-sensitive and
casefolded comparison (`Temp` / `apple`). -/
def selMixedCase : Selector :=
  ⟨[rowApple, rowTempUpper], true, true, "", none, []⟩

/-- C9 counterexample: the option list `VariableSelector` actually hands
to the Select widget (via `_update_variables`, here reached through
`_search_eventhandler`) on a concrete catalog is `["Temp", "apple"]` —
code-point order from `sort_values(['name'])` — which is **not**
case-insensitively sorted (`apple` should precede `Temp`). -/
theorem C9_sort_counterexample :
    ((searchEventhandler selMixedCase).options.map Prod.fst) = ["Temp", "apple"] ∧
    ¬ List.Sorted casefoldLe ((searchEventhandler selMixedCase).options.map Prod.fst) := by
  refine ⟨by decide, ?_⟩
  intro hsorted
  rw [show ((searchEventhandler selMixedCase).options.map Prod.fst) = ["Temp", "apple"]
    from by decide] at hsorted
  have hle : casefoldLe "Temp" "apple" :=
    (List.pairwise_cons.mp hsorted).1 "apple" (List.mem_singleton.mpr rfl)
  exact absurd hle (by decide)

/-- C9 as amended: only `ExperimentExplorer.get_visible_variables`
returns a case-insensitively sorted name list; every list produced by
`VariableSelector._update_variables` / `VariableSelectFilter._update_variables`
(the display path used after filtering, searching, add and delete) is
sorted by `name` with plain case-sensitive comparison instead. -/
theorem C9_sort_amended (vars rows : List VarRow) (hr hc : Bool) (term : Option String) :
    List.Sorted casefoldLe (get_visible_variables vars hr hc term) ∧
    List.Sorted strLe ((updateVariablesOptions rows).map Prod.fst) := by
  constructor
  · exact List.sorted_insertionSort casefoldLe _
  · have hs : List.Sorted rowNameLe (List.insertionSort rowNameLe rows) :=
      List.sorted_insertionSort rowNameLe rows
    unfold updateVariablesOptions
    rw [List.map_map]
    exact hs.map _ (fun a b h => h)

end DataExplorer
